import Mathlib

/-!
Verification of the Akari DNS enumerator (`akari.py`).

Shallow embedding of the lookup-and-report pipeline of `akari.py`:
the DNS lookup with classified exception handling (`perform_dns_lookup`),
the per-IP geolocation enrichment (`get_ipinfo_data`), the configuration
loader (`load_config`), the output writer (`save_results`), the retry
decorator (`@retry(wait_fixed=2000, stop_max_attempt_number=3)` from the
`retrying` library), and the thread-pool orchestration in `main`.

External adapters (the DNS resolver and the ipinfo handler) are passed in
as functions returning `Except`, mirroring how the Python code observes
them: a normal return or a raised exception.
-/

namespace Akari

/-- ANSI SGR code used by `termcolor` for each color name appearing in
`akari.py` (`termcolor.COLORS`). -/
def colorCode : String → String
  | "red" => "31"
  | "green" => "32"
  | "yellow" => "33"
  | "blue" => "34"
  | _ => "0"

/-- Model of `termcolor.colored(text, color)`: wraps the text in the ANSI escape
sequence for the color and the reset sequence. -/
def colored (text color : String) : String :=
  "\x1b[" ++ colorCode color ++ "m" ++ text ++ "\x1b[0m"

/-- The exceptions `perform_dns_lookup` distinguishes: the five classified
`dns.resolver` exceptions plus the catch-all `except Exception` arm, which
carries the message of any other exception. -/
inductive DnsException where
  | NoAnswer
  | NXDOMAIN
  | Timeout
  | YXDOMAIN
  | NoNameservers
  | other (msg : String)
deriving DecidableEq, Repr

/-- Python truthiness of an optional string (e.g. `if ipinfo_token:`):
present and non-empty. -/
def truthy : Option String → Bool
  | none => false
  | some s => !s.isEmpty

/-- The error line each `except` arm of `perform_dns_lookup` appends
(lines 47-58 of `akari.py`). -/
def errorLine (domain record_type : String) : DnsException → String
  | .NoAnswer =>
      colored ("No " ++ record_type ++ " records found for " ++ domain ++ ".") "yellow"
  | .NXDOMAIN =>
      colored ("The domain " ++ domain ++ " does not exist.") "red"
  | .Timeout =>
      colored ("Timeout while resolving " ++ domain ++ " for " ++ record_type ++ " records.") "red"
  | .YXDOMAIN =>
      colored ("Too many questions in the DNS query for " ++ domain ++ ".") "red"
  | .NoNameservers =>
      colored ("No nameservers available to resolve " ++ domain ++ ".") "red"
  | .other e =>
      colored ("An error occurred: " ++ e) "red"

/-- Geolocation details returned by `handler.getDetails(ip)` on success. -/
structure IpDetails where
  city : String
  region : String
  country : String
  org : String
  postal : String
  timezone : String
  loc : String
deriving DecidableEq, Repr

/-- Insertion-ordered dict update, as in `geolocations[ip] = ...`: replace
the value in place if the key is present, else append at the end. -/
def dict_set {α : Type} : List (String × α) → String → α → List (String × α)
  | [], k, v => [(k, v)]
  | p :: rest, k, v =>
      if p.1 = k then (k, v) :: rest else p :: dict_set rest k v

/-- Dict read: value of the first (for dicts built by `dict_set`, only)
entry with the given key. -/
def dict_get {α : Type} : List (String × α) → String → Option α
  | [], _ => none
  | p :: rest, k => if p.1 = k then some p.2 else dict_get rest k

/-- The dict value `get_ipinfo_data` stores for one IP: on success the
seven populated fields in the order of the Python dict literal, on any
exception the single error placeholder (lines 65-79 of `akari.py`). -/
def geo_entry (getDetails : String → Except String IpDetails) (ip : String) :
    List (String × String) :=
  match getDetails ip with
  | .ok d =>
      [("City", d.city), ("Region", d.region), ("Country", d.country),
       ("Org", d.org), ("Postal", d.postal), ("Timezone", d.timezone),
       ("Location", d.loc)]
  | .error e =>
      [("Error", "Could not retrieve geolocation data: " ++ e)]

/-- Model of `get_ipinfo_data(ips, token)`: one `getDetails` query per IP, in input
order, each arm wrapped in its own `try`/`except`; the results accumulate
in an insertion-ordered dict keyed by IP. -/
def get_ipinfo_data (getDetails : String → Except String IpDetails)
    (ips : List String) : List (String × List (String × String)) :=
  ips.foldl (fun acc ip => dict_set acc ip (geo_entry getDetails ip)) []

/-- The display lines of the geolocation block appended for the dict
returned by `get_ipinfo_data` (lines 43-46 of `akari.py`). -/
def geoLines (geo : List (String × List (String × String))) : List String :=
  geo.flatMap (fun p =>
    ("IP Geolocation for " ++ p.1 ++ ":") ::
      p.2.map (fun kv => "    " ++ kv.1 ++ ": " ++ kv.2))

/-- The header line of a successful lookup (line 33 of `akari.py`). -/
def headerLine (domain record_type : String) : String :=
  colored record_type "blue" ++ " records for " ++ colored domain "green" ++ ":"

/-- Instrumented `perform_dns_lookup`: returns the result lines together
with the list of IPs passed to the geolocation adapter (empty when the
adapter is not invoked).  The resolver is observed through `resolve`; a
raised exception is its `Except.error`.  Inside the `try`, `ips` collects
`str(rdata)` for every answer exactly when `record_type == "A" and
ipinfo_token`; the geolocation call fires only under `if ips and
ipinfo_token`.  Every exception arm appends exactly one line. -/
def perform_dns_lookupT (resolve : String → String → Except DnsException (List String))
    (getDetails : String → Except String IpDetails)
    (domain record_type : String) (ipinfo_token : Option String) :
    List String × List String :=
  match resolve domain record_type with
  | .ok answers =>
      let ips := if record_type == "A" && truthy ipinfo_token then answers else []
      if !ips.isEmpty && truthy ipinfo_token then
        (headerLine domain record_type :: answers ++
          geoLines (get_ipinfo_data getDetails ips), ips)
      else
        (headerLine domain record_type :: answers, [])
  | .error e => ([errorLine domain record_type e], [])

/-- The result lines of `perform_dns_lookup` alone. -/
def perform_dns_lookup (resolve : String → String → Except DnsException (List String))
    (getDetails : String → Except String IpDetails)
    (domain record_type : String) (ipinfo_token : Option String) : List String :=
  (perform_dns_lookupT resolve getDetails domain record_type ipinfo_token).1

/-! The retry decorator.

`@retry(wait_fixed=2000, stop_max_attempt_number=3)` from the `retrying`
library (a declared dependency): call the wrapped function; on a raised
exception, if fewer than `stop_max_attempt_number` attempts have been
made, sleep `wait_fixed` milliseconds and call again; once the attempt cap
is reached the last exception is re-raised (default `wrap_exception=False`).
We model the wrapped callable as a function of the attempt index (so a
mock can fail on some attempts and succeed on others) and return the final
outcome together with the number of invocations made and the total
milliseconds slept. -/

/-- One run of the retry loop starting at attempt index `i` with
`rest` further attempts allowed after the current one.  Returns
(outcome, invocations made, total wait in ms). -/
def retryGo {ε α : Type} (f : Nat → Except ε α) (waitFixed : Nat) :
    Nat → Nat → Except ε α × Nat × Nat
  | i, 0 => (f i, 1, 0)
  | i, rest + 1 =>
      match f i with
      | .ok a => (.ok a, 1, 0)
      | .error _ =>
          let r := retryGo f waitFixed (i + 1) rest
          (r.1, r.2.1 + 1, r.2.2 + waitFixed)

/-- The retry policy of `perform_dns_lookup_with_retry`:
`wait_fixed=2000`, `stop_max_attempt_number=3` (so at most 2 further
attempts after the first). -/
def retryPolicy {ε α : Type} (f : Nat → Except ε α) : Except ε α × Nat × Nat :=
  retryGo f 2000 0 2

/-- Instrumented `perform_dns_lookup_with_retry`: the wrapped call is
`perform_dns_lookup` itself, which returns normally (it raises nothing),
so the decorator sees `Except.ok` on every attempt.  `resolveAt i` is the
behavior of the resolver on its `i`-th invocation; each attempt of
`perform_dns_lookup` invokes the resolver exactly once, so resolver
invocations coincide with retry attempts.  Returns (outcome, resolver
invocation count, total wait in ms). -/
def perform_dns_lookup_with_retryT
    (resolveAt : Nat → String → String → Except DnsException (List String))
    (getDetails : String → Except String IpDetails)
    (domain record_type : String) (ipinfo_token : Option String) :
    Except String (List String) × Nat × Nat :=
  retryPolicy (fun i =>
    Except.ok (perform_dns_lookup (resolveAt i) getDetails domain record_type ipinfo_token))

/-! Output writing (`save_results`).

`save_results(results, output_file, output_format)` writes:
  * `json`: `json.dump(results, f, indent=4)` — a JSON array of the line
    strings, pretty-indented, with the default `ensure_ascii=True`
    escaping (control characters and non-ASCII become `\uXXXX`;
    characters of the supplementary planes do not occur in the lines the
    tool produces and are not modeled);
  * `csv`: `csv.writer(f)` with one single-field row per line — default
    excel dialect: minimal quoting (quote only fields containing the
    delimiter, the quote character, or a CR/LF, doubling embedded
    quotes), rows terminated by CRLF;
  * anything else (the `txt` default): each line verbatim followed by a
    newline.
The model returns the content of the file as a string. -/

/-- One hex digit, lowercase, as produced by the `\uXXXX` escapes of the
Python `json` encoder. -/
def hexDigit (n : Nat) : Char :=
  if n < 10 then Char.ofNat (48 + n) else Char.ofNat (87 + n)

/-- JSON escaping of one character under `ensure_ascii=True`. -/
def jsonEscapeChar (c : Char) : List Char :=
  if c = '"' then ['\\', '"']
  else if c = '\\' then ['\\', '\\']
  else if c = '\n' then ['\\', 'n']
  else if c = '\r' then ['\\', 'r']
  else if c = '\t' then ['\\', 't']
  else if c = Char.ofNat 8 then ['\\', 'b']
  else if c = Char.ofNat 12 then ['\\', 'f']
  else if c.toNat < 32 || c.toNat > 126 then
    ['\\', 'u', hexDigit (c.toNat / 4096 % 16), hexDigit (c.toNat / 256 % 16),
     hexDigit (c.toNat / 16 % 16), hexDigit (c.toNat % 16)]
  else [c]

/-- JSON escaping of the characters of a string. -/
def jsonEscapeList : List Char → List Char
  | [] => []
  | c :: cs => jsonEscapeChar c ++ jsonEscapeList cs

/-- The JSON string literal for `s` (quotes included). -/
def jsonString (s : String) : String :=
  "\"" ++ String.mk (jsonEscapeList s.data) ++ "\""

/-- The elements of the array body of `json.dump(results, f, indent=4)`:
each element on its own line indented by four spaces, separated by
`,\n`. -/
def jsonItems : List String → String
  | [] => ""
  | [s] => "    " ++ jsonString s
  | s :: rest => "    " ++ jsonString s ++ ",\n" ++ jsonItems rest

/-- Model of `json.dump(results, f, indent=4)` for a list of strings. -/
def json_dump (results : List String) : String :=
  match results with
  | [] => "[]"
  | _ => "[\n" ++ jsonItems results ++ "\n]"

/-- Minimal-quoting test of the excel dialect for a field. -/
def csvNeedsQuoting (s : String) : Bool :=
  s.data.any (fun c => c = ',' || c = '"' || c = '\n' || c = '\r')

/-- Doubling of embedded quote characters inside a quoted CSV field. -/
def csvDoubleQuotes : List Char → List Char
  | [] => []
  | c :: cs => (if c = '"' then ['"', '"'] else [c]) ++ csvDoubleQuotes cs

/-- One CSV field under minimal quoting. -/
def csvField (s : String) : String :=
  if csvNeedsQuoting s then "\"" ++ String.mk (csvDoubleQuotes s.data) ++ "\""
  else s

/-- Model of `save_results(results, _, output_format)`: the content written to the
output file. -/
def save_results (results : List String) (output_format : String) : String :=
  if output_format == "json" then
    json_dump results
  else if output_format == "csv" then
    String.join (results.map (fun result => csvField result ++ "\r\n"))
  else
    String.join (results.map (fun line => line ++ "\n"))

/-! Configuration loading and the settings resolution of `main`. -/

/-- The keys under the `[settings]` section of the config file, in file
order; `config.get` on the settings section reads the first matching key. -/
def cfgGet (settings : List (String × String)) (key : String) : Option String :=
  dict_get settings key

/-- Comma splitting of a character list, as Python `str.split(',')` does:
the empty string gives one empty field, consecutive commas give empty
fields. -/
def splitCommaAux : List Char → List Char → List String
  | [], acc => [String.mk acc]
  | c :: cs, acc =>
      if c = ',' then String.mk acc :: splitCommaAux cs []
      else splitCommaAux cs (acc ++ [c])

/-- Model of `.split(',')` on a string. -/
def split_comma (s : String) : List String :=
  splitCommaAux s.data []

/-- Model of `load_config(config_file)` (lines 82-89 of `akari.py`): reads
`domains` and `record_types` (comma-split), `timeout` (kept as its raw
string; parsing it to float belongs to `configparser`), and `nameserver` with
fallback `None`.  `domains`, `record_types` or `timeout` missing raises
`configparser.NoOptionError`, modeled as `none`.  No other key is read;
in particular no `ipinfo_token` key is consulted. -/
def load_config (settings : List (String × String)) :
    Option (List String × List String × String × Option String) :=
  match cfgGet settings "domains", cfgGet settings "record_types",
      cfgGet settings "timeout" with
  | some d, some rt, some t =>
      some (split_comma d, split_comma rt, t, cfgGet settings "nameserver")
  | _, _, _ => none

/-- The run parameters `main` ends up using for the lookups. -/
structure RunSettings where
  domains : List String
  record_types : List String
  timeout : String
  nameserver : Option String
  ipinfo_token : Option String
deriving DecidableEq, Repr

/-- Settings resolution of `main` (lines 126-134 of `akari.py`): with
`--config`, domains/record_types/timeout/nameserver come from
`load_config` and nothing else changes; without it, `--domain` is
required (its absence is the `parser.error` usage exit, modeled as
`none`).  In both branches the ipinfo token passed to every lookup is
`args.ipinfo_token`, the CLI flag. -/
def main_settings (args_config : Option (List (String × String)))
    (args_domain : Option String) (args_types : List String)
    (args_timeout : String) (args_nameserver : Option String)
    (args_ipinfo_token : Option String) : Option RunSettings :=
  match args_config with
  | some cfg =>
      (load_config cfg).map (fun r =>
        ⟨r.1, r.2.1, r.2.2.1, r.2.2.2, args_ipinfo_token⟩)
  | none =>
      match args_domain with
      | none => none
      | some d => some ⟨[d], args_types, args_timeout, args_nameserver, args_ipinfo_token⟩

/-! Orchestration (`main`, lines 136-148).

`main` submits one future per (domain, record_type) pair — the dict
comprehension iterates domains outermost, record types innermost — and
collects completed futures in completion order: `future.result()` either
returns the lines, which extend the aggregate list, or raises, in which
case a single "generated an exception" line is appended. -/

/-- The dispatch order of the (domain, record_type) pairs. -/
def dispatchPairs (domains record_types : List String) : List (String × String) :=
  domains.flatMap (fun d => record_types.map (fun t => (d, t)))

/-- The lines the collection loop of `main` contributes for one completed
future: the lines of the future on a normal return, else the single
exception-attribution line (lines 142-148 of `akari.py`). -/
def collect_future (record_type : String) (outcome : Except String (List String)) :
    List String :=
  match outcome with
  | .ok result => result
  | .error exc => [colored (record_type ++ " generated an exception: " ++ exc) "red"]

/-- The outcome of the future `main` submits for one pair: the retried
lookup, with the resolver behaving the same on every invocation
(deterministic adapters). -/
def akari_outcome (resolve : String → String → Except DnsException (List String))
    (getDetails : String → Except String IpDetails) (ipinfo_token : Option String)
    (p : String × String) : Except String (List String) :=
  (perform_dns_lookup_with_retryT (fun _ => resolve) getDetails p.1 p.2 ipinfo_token).1

/-- The aggregate result list for a given completion order of the pairs
and a given per-pair future outcome. -/
def main_results (outcome : String × String → Except String (List String))
    (completion : List (String × String)) : List String :=
  completion.flatMap (fun p => collect_future p.2 (outcome p))

/-- Sequential-mode reference: process the pairs one at a time in input
order, concatenating the lookup lines of each pair. -/
def runSequential (resolve : String → String → Except DnsException (List String))
    (getDetails : String → Except String IpDetails) (ipinfo_token : Option String)
    (pairs : List (String × String)) : List String :=
  pairs.flatMap (fun p => perform_dns_lookup resolve getDetails p.1 p.2 ipinfo_token)

/-! Concrete mock adapters, used to exercise the pipeline on explicit
inputs. -/

/-- Mock resolver that raises NXDOMAIN on every query. -/
def nxResolver : String → String → Except DnsException (List String) :=
  fun _ _ => Except.error DnsException.NXDOMAIN

/-- Mock resolver returning one A record. -/
def oneARecordResolver : String → String → Except DnsException (List String) :=
  fun _ _ => Except.ok ["93.184.216.34"]

/-- Mock resolver returning two record values. -/
def twoRecordResolver : String → String → Except DnsException (List String) :=
  fun _ _ => Except.ok ["mail1.example.com.", "mail2.example.com."]

/-- Mock resolver, invocation-indexed, that raises on its first two
invocations and succeeds from the third on. -/
def failTwiceResolver : Nat → String → String → Except DnsException (List String) :=
  fun i _ _ =>
    if i < 2 then Except.error (DnsException.other "boom") else Except.ok ["93.184.216.34"]

/-- Mock geolocation handler whose every query fails. -/
def failingHandler : String → Except String IpDetails :=
  fun _ => Except.error "HTTPError"

/-- Mock geolocation handler succeeding for one known IP and failing for
every other. -/
def mixedHandler : String → Except String IpDetails :=
  fun ip =>
    if ip = "93.184.216.34" then
      Except.ok ⟨"Norwell", "Massachusetts", "US", "EdgeCast", "02061", "America/New_York", "42.1596,-70.8217"⟩
    else Except.error "HTTPError"

/-! Helper lemmas. -/

/-- A retry run whose current attempt succeeds stops after that single
invocation, with no wait. -/
theorem retryGo_ok {ε α : Type} (f : Nat → Except ε α) (w i rest : Nat) (a : α)
    (h : f i = Except.ok a) : retryGo f w i rest = (Except.ok a, 1, 0) := by
  cases rest <;> simp [retryGo, h]

/-- Reading back a dict after an update: the updated key holds the new
value, every other key is untouched. -/
theorem dict_get_set {α : Type} (d : List (String × α)) (k : String) (v : α) (q : String) :
    dict_get (dict_set d k v) q = if q = k then some v else dict_get d q := by
  induction d with
  | nil =>
      simp only [dict_set, dict_get]
      by_cases h : q = k
      · simp [h]
      · rw [if_neg (fun hh => h hh.symm), if_neg h]
  | cons p rest ih =>
      by_cases hpk : p.1 = k
      · simp only [dict_set, if_pos hpk, dict_get]
        by_cases hqk : q = k
        · subst hqk; simp
        · rw [if_neg (fun hh => hqk hh.symm), if_neg hqk,
            if_neg (by rw [hpk]; exact fun hh => hqk hh.symm)]
      · by_cases hpq : p.1 = q
        · have hqk : ¬ q = k := fun h => hpk (hpq.trans h)
          simp [dict_set, dict_get, hpk, hpq, hqk]
        · simp [dict_set, dict_get, hpk, hpq, ih]

/-- The entry of the geolocation fold at a queried IP: present with the
per-IP value whenever the IP was among the inputs, otherwise whatever the
accumulator held. -/
theorem ipinfo_foldl_get (g : String → Except String IpDetails) :
    ∀ (ips : List String) (acc : List (String × List (String × String))) (ip : String),
    dict_get (ips.foldl (fun a i => dict_set a i (geo_entry g i)) acc) ip =
      if ip ∈ ips then some (geo_entry g ip) else dict_get acc ip := by
  intro ips
  induction ips with
  | nil => simp
  | cons x rest ih =>
      intro acc ip
      simp only [List.foldl_cons]
      rw [ih]
      by_cases hr : ip ∈ rest
      · simp [hr]
      · by_cases hx : ip = x
        · subst hx; simp [hr, dict_get_set]
        · simp [hr, hx, dict_get_set]

/-- A flat map over lists that are all non-empty has at least one element
per input. -/
theorem flatMap_length_le {α β : Type} (l : List α) (f : α → List β)
    (h : ∀ x ∈ l, f x ≠ []) : l.length ≤ (l.flatMap f).length := by
  induction l with
  | nil => simp
  | cons x rest ih =>
      simp only [List.flatMap_cons, List.length_append, List.length_cons]
      have h1 : f x ≠ [] := h x (by simp)
      have h2 := ih (fun y hy => h y (by simp [hy]))
      have h3 : 1 ≤ (f x).length := by
        cases hfx : f x with
        | nil => exact absurd hfx h1
        | cons a b => simp
      omega

/-- The lookup never produces an empty result: the success path starts
with the header line and every exception arm appends exactly one line. -/
theorem perform_dns_lookup_ne_nil
    (resolve : String → String → Except DnsException (List String))
    (g : String → Except String IpDetails) (d rt : String) (tok : Option String) :
    perform_dns_lookup resolve g d rt tok ≠ [] := by
  unfold perform_dns_lookup perform_dns_lookupT
  cases h : resolve d rt
  · simp
  · dsimp only
    split
    · split <;> simp
    · split <;> simp

/-- The future of one pair always resolves to a normal return carrying the
lookup lines: the wrapped call never raises, so the retry loop stops after
its first attempt. -/
theorem akari_outcome_ok (resolve : String → String → Except DnsException (List String))
    (g : String → Except String IpDetails) (tok : Option String) (p : String × String) :
    akari_outcome resolve g tok p =
      Except.ok (perform_dns_lookup resolve g p.1 p.2 tok) := by
  have h := retryGo_ok (fun _ : Nat =>
      (Except.ok (perform_dns_lookup resolve g p.1 p.2 tok) : Except String (List String)))
    2000 0 2 (perform_dns_lookup resolve g p.1 p.2 tok) rfl
  exact congrArg Prod.fst h

/-- An infix of a list is an infix of any right extension of it. -/
theorem infix_append_of_infix_left {α : Type} {x s : List α} (t : List α)
    (h : x <:+: s) : x <:+: s ++ t := by
  obtain ⟨u, v, huv⟩ := h
  exact ⟨u, v ++ t, by rw [← huv]; simp⟩

/-- An infix of a list is an infix of any left extension of it. -/
theorem infix_append_of_infix_right {α : Type} {x t : List α} (s : List α)
    (h : x <:+: t) : x <:+: s ++ t := by
  obtain ⟨u, v, huv⟩ := h
  exact ⟨s ++ u, v, by rw [← huv]; simp⟩

/-- The JSON escape of the ANSI escape character survives, escaped as the
six characters of `\u001b`, in the escape of any string containing it. -/
theorem jsonEscapeList_esc_within :
    ∀ l : List Char, '\x1b' ∈ l → "\\u001b".data <:+: jsonEscapeList l := by
  intro l
  induction l with
  | nil => intro hl; cases hl
  | cons c cs ih =>
      intro hl
      rw [jsonEscapeList]
      rcases List.mem_cons.mp hl with hc | hcs
      · have he : jsonEscapeChar c = "\\u001b".data := by rw [← hc]; decide
        rw [he]
        exact (List.prefix_append _ _).isInfix
      · exact infix_append_of_infix_right _ (ih hcs)

/-- Same survival through the quoted JSON string literal. -/
theorem jsonString_esc_within (s : String) (h : '\x1b' ∈ s.data) :
    "\\u001b".data <:+: (jsonString s).data := by
  rw [jsonString, String.data_append, String.data_append]
  exact infix_append_of_infix_left _
    (infix_append_of_infix_right _ (jsonEscapeList_esc_within s.data h))

/-- A member line of the array body keeps its JSON string literal as an
infix of the serialized body. -/
theorem jsonItems_mem_within :
    ∀ (results : List String) (s : String), s ∈ results →
      (jsonString s).data <:+: (jsonItems results).data := by
  intro results
  induction results with
  | nil => intro s hs; cases hs
  | cons x rest ih =>
      intro s hs
      cases rest with
      | nil =>
          rcases List.mem_cons.mp hs with hc | hcs
          · subst hc
            have hJ : jsonItems [s] = "    " ++ jsonString s := rfl
            rw [hJ, String.data_append]
            exact (List.suffix_append _ _).isInfix
          · cases hcs
      | cons y t =>
          have hJ : jsonItems (x :: y :: t) =
              "    " ++ jsonString x ++ ",\n" ++ jsonItems (y :: t) := rfl
          rw [hJ, String.data_append, String.data_append, String.data_append]
          simp only [List.append_assoc]
          rcases List.mem_cons.mp hs with hc | hcs
          · subst hc
            exact infix_append_of_infix_right _ ((List.prefix_append _ _).isInfix)
          · exact infix_append_of_infix_right _ (infix_append_of_infix_right _
              (infix_append_of_infix_right _ (ih s hcs)))

/-- Quote doubling never removes a non-quote character. -/
theorem mem_csvDoubleQuotes {c : Char} :
    ∀ l : List Char, c ∈ l → c ≠ '"' → c ∈ csvDoubleQuotes l := by
  intro l hl hc
  induction l with
  | nil => cases hl
  | cons x xs ih =>
      rw [csvDoubleQuotes]
      rcases List.mem_cons.mp hl with h1 | h2
      · subst h1
        rw [if_neg hc]
        simp
      · exact List.mem_append_right _ (ih h2)

/-- A non-quote character of a field survives CSV field encoding. -/
theorem mem_csvField {c : Char} (s : String) (hc : c ∈ s.data) (hq : c ≠ '"') :
    c ∈ (csvField s).data := by
  rw [csvField]
  split
  · rw [String.data_append, String.data_append]
    exact List.mem_append_left _ (List.mem_append_right _ (mem_csvDoubleQuotes s.data hc hq))
  · exact hc

/-- The IPs handed to the geolocation adapter: the resolved answers
exactly when the type is A, the token is truthy and at least one answer
came back; empty otherwise. -/
theorem lookupT_snd (resolve : String → String → Except DnsException (List String))
    (g : String → Except String IpDetails) (d rt : String) (tok : Option String) :
    (perform_dns_lookupT resolve g d rt tok).2 =
      match resolve d rt with
      | .ok answers =>
          if rt == "A" && truthy tok && !answers.isEmpty then answers else []
      | .error _ => [] := by
  unfold perform_dns_lookupT
  cases h : resolve d rt with
  | error e => rfl
  | ok answers =>
      dsimp only
      by_cases hA : (rt == "A" && truthy tok) = true
      · have hcomp := hA
        rw [Bool.and_eq_true] at hcomp
        by_cases hE : answers.isEmpty
        · have hnil : answers = [] := by simpa [List.isEmpty_iff] using hE
          subst hnil
          simp [hA]
        · have hne : answers ≠ [] := by simpa [List.isEmpty_iff] using hE
          have hrtA : rt = "A" := by simpa using hcomp.1
          simp [hA, hne, hcomp.2, hrtA]
      · have hA' : (rt == "A" && truthy tok) = false := by
          simpa using hA
        simp [hA']

/-- The result lines in the geolocation-enriched case. -/
theorem lookupT_fst_geo (resolve : String → String → Except DnsException (List String))
    (g : String → Except String IpDetails) (d : String) (tok : Option String)
    (answers : List String) (h : resolve d "A" = Except.ok answers)
    (ht : truthy tok = true) (hne : answers ≠ []) :
    (perform_dns_lookupT resolve g d "A" tok).1 =
      headerLine d "A" :: answers ++ geoLines (get_ipinfo_data g answers) := by
  unfold perform_dns_lookupT
  rw [h]
  simp [ht, hne]

/-- The aggregate the orchestrator builds: since every future returns
normally, it is the plain concatenation of the per-pair lookup lines in
completion order. -/
theorem main_results_eq (resolve : String → String → Except DnsException (List String))
    (g : String → Except String IpDetails) (tok : Option String)
    (completion : List (String × String)) :
    main_results (akari_outcome resolve g tok) completion =
      completion.flatMap (fun p => perform_dns_lookup resolve g p.1 p.2 tok) := by
  unfold main_results
  have hfun : (fun p : String × String => collect_future p.2 (akari_outcome resolve g tok p)) =
      (fun p : String × String => perform_dns_lookup resolve g p.1 p.2 tok) :=
    funext (fun p => by rw [akari_outcome_ok]; rfl)
  rw [hfun]

/-! Claim theorems. -/

/-- C1, counterexample: a resolver that fails on its first two invocations
and succeeds on the third does NOT get retried, because
`perform_dns_lookup` converts the failure into an error line instead of
raising.  The resolver is invoked exactly once (not 3 times) and the
final result is the error line of the first failure, not the success. -/
theorem C1_counterexample :
    (perform_dns_lookup_with_retryT failTwiceResolver failingHandler
        "example.com" "A" none).2.1 = 1 ∧
    (perform_dns_lookup_with_retryT failTwiceResolver failingHandler
        "example.com" "A" none).2.1 ≠ 3 ∧
    (perform_dns_lookup_with_retryT failTwiceResolver failingHandler
        "example.com" "A" none).1 =
      Except.ok [errorLine "example.com" "A" (DnsException.other "boom")] :=
  ⟨rfl, by decide, rfl⟩

/-- C1, amended: the retry policy attached to
`perform_dns_lookup_with_retry` (3 total attempts, fixed 2000 ms delay,
retry on any exception of the wrapped call, final exception propagated)
does behave as claimed for a wrapped call that raises — fails-twice-then-
succeeds makes exactly 3 invocations ending in the success, always-fails
makes exactly 3 invocations surfacing the last error — but the call it
wraps, `perform_dns_lookup`, never raises, so through
`perform_dns_lookup_with_retry` the resolver is invoked exactly once and a
failing resolver yields the error line of its first failure. -/
theorem C1_retry_semantics {ε α : Type} (f : Nat → Except ε α) (e0 e1 : ε)
    (h0 : f 0 = Except.error e0) (h1 : f 1 = Except.error e1) :
    (∀ a, f 2 = Except.ok a → retryPolicy f = (Except.ok a, 3, 4000)) ∧
    (∀ e2, f 2 = Except.error e2 → retryPolicy f = (Except.error e2, 3, 4000)) ∧
    (∀ (resolveAt : Nat → String → String → Except DnsException (List String))
        (g : String → Except String IpDetails) (d rt : String) (tok : Option String),
      perform_dns_lookup_with_retryT resolveAt g d rt tok =
        (Except.ok (perform_dns_lookup (resolveAt 0) g d rt tok), 1, 0)) := by
  refine ⟨?_, ?_, ?_⟩
  · intro a ha
    simp [retryPolicy, retryGo, h0, h1, ha]
  · intro e2 he
    simp [retryPolicy, retryGo, h0, h1, he]
  · intro resolveAt g d rt tok
    unfold perform_dns_lookup_with_retryT retryPolicy
    exact retryGo_ok _ _ _ _ _ rfl

/-- C1, witness for the amended theorem at concrete inputs. -/
theorem C1_witness :
    retryPolicy (fun i => if i < 2 then (Except.error "boom" : Except String Nat)
        else Except.ok 7) = (Except.ok 7, 3, 4000) ∧
    perform_dns_lookup_with_retryT (fun _ => nxResolver) failingHandler
        "nonexist.invalid" "A" none =
      (Except.ok (perform_dns_lookup nxResolver failingHandler "nonexist.invalid" "A" none),
        1, 0) := by
  constructor
  · exact (C1_retry_semantics
      (fun i => if i < 2 then (Except.error "boom" : Except String Nat) else Except.ok 7)
      "boom" "boom" rfl rfl).1 7 rfl
  · exact (C1_retry_semantics
      (fun i => if i < 2 then (Except.error "boom" : Except String Nat) else Except.ok 7)
      "boom" "boom" rfl rfl).2.2 (fun _ => nxResolver) failingHandler "nonexist.invalid" "A" none

/-- C2: every dispatched (domain, recordType) pair yields exactly one
outcome and it is never empty: the lines one pair contributes to the
aggregate are non-empty, the underlying lookup result is non-empty, and
the aggregate has at least one line per dispatched pair. -/
theorem C2_every_pair_yields_output
    (resolve : String → String → Except DnsException (List String))
    (g : String → Except String IpDetails) (tok : Option String)
    (completion : List (String × String)) (p : String × String)
    (_hp : p ∈ completion) :
    collect_future p.2 (akari_outcome resolve g tok p) ≠ [] ∧
    perform_dns_lookup resolve g p.1 p.2 tok ≠ [] ∧
    completion.length ≤ (main_results (akari_outcome resolve g tok) completion).length := by
  refine ⟨?_, perform_dns_lookup_ne_nil resolve g p.1 p.2 tok, ?_⟩
  · rw [akari_outcome_ok]
    exact perform_dns_lookup_ne_nil resolve g p.1 p.2 tok
  · rw [main_results_eq]
    exact flatMap_length_le completion _
      (fun q _ => perform_dns_lookup_ne_nil resolve g q.1 q.2 tok)

/-- C2, witness at a concrete completed pair. -/
theorem C2_witness :
    collect_future "A" (akari_outcome nxResolver failingHandler none
        ("nonexist.invalid", "A")) ≠ [] ∧
    perform_dns_lookup nxResolver failingHandler "nonexist.invalid" "A" none ≠ [] ∧
    ([("nonexist.invalid", "A")] : List (String × String)).length ≤
      (main_results (akari_outcome nxResolver failingHandler none)
        [("nonexist.invalid", "A")]).length := by
  exact C2_every_pair_yields_output nxResolver failingHandler none
    [("nonexist.invalid", "A")] ("nonexist.invalid", "A") (by decide)

/-- C3, counterexample: for the result line `colored "x" "red"` the JSON
output still carries the ANSI escape (as its JSON escape `\u001b`) and
the CSV output carries the raw escape character; neither equals the
output of the stripped line.  Color markup is not stripped or omitted. -/
theorem C3_counterexample :
    '\x1b' ∈ (save_results [colored "x" "red"] "csv").data ∧
    "\\u001b".data <:+: (save_results [colored "x" "red"] "json").data ∧
    save_results [colored "x" "red"] "json" ≠ json_dump ["x"] ∧
    save_results [colored "x" "red"] "csv" ≠ "x\r\n" := by
  refine ⟨by decide, ⟨"[\n    \"".data, "[31mx\\u001b[0m\"\n]".data, by decide⟩,
    by decide, by decide⟩

/-- C3, amended: embedded color markup is NOT stripped for the JSON and
CSV formats: any result line containing the ANSI escape character leaves
the raw escape character in the CSV output and its JSON escape `\u001b`
in the JSON output; the plain-text format writes the lines verbatim. -/
theorem C3_markup_not_stripped (results : List String) (s : String)
    (hs : s ∈ results) (hesc : '\x1b' ∈ s.data) :
    '\x1b' ∈ (save_results results "csv").data ∧
    "\\u001b".data <:+: (save_results results "json").data ∧
    save_results results "txt" =
      String.join (results.map (fun line => line ++ "\n")) := by
  refine ⟨?_, ?_, rfl⟩
  · have h1 : save_results results "csv" =
        String.join (results.map (fun r => csvField r ++ "\r\n")) := rfl
    rw [h1, String.data_join, List.map_map]
    refine List.mem_flatten.mpr ⟨(csvField s ++ "\r\n").data, ?_, ?_⟩
    · exact List.mem_map.mpr ⟨s, hs, rfl⟩
    · rw [String.data_append]
      exact List.mem_append_left _ (mem_csvField s hesc (by decide))
  · have h2 : save_results results "json" = json_dump results := rfl
    rw [h2]
    cases results with
    | nil => cases hs
    | cons x rest =>
        have h3 : json_dump (x :: rest) = "[\n" ++ jsonItems (x :: rest) ++ "\n]" := rfl
        rw [h3, String.data_append, String.data_append]
        have h4 := (jsonString_esc_within s hesc).trans (jsonItems_mem_within (x :: rest) s hs)
        exact infix_append_of_infix_left _ (infix_append_of_infix_right _ h4)

/-- C3, witness for the amended theorem at a concrete colored line. -/
theorem C3_witness :
    '\x1b' ∈ (save_results [colored "y" "red"] "csv").data ∧
    "\\u001b".data <:+: (save_results [colored "y" "red"] "json").data ∧
    save_results [colored "y" "red"] "txt" =
      String.join ([colored "y" "red"].map (fun line => line ++ "\n")) := by
  exact C3_markup_not_stripped [colored "y" "red"] (colored "y" "red")
    (by simp) (by decide)

/-- C4, counterexample: with a resolver raising NXDOMAIN, the output for
domain nonexist.invalid and type A is not the plain string of the claim —
the line is wrapped in the red ANSI markup by `colored`. -/
theorem C4_counterexample :
    perform_dns_lookup nxResolver failingHandler "nonexist.invalid" "A" none ≠
      ["The domain nonexist.invalid does not exist."] := by
  decide

/-- C4, amended: when the resolver raises NXDOMAIN, `perform_dns_lookup`
returns exactly one line, the NXDOMAIN message colored red, for every
domain and record type; for nonexist.invalid with type A it is the single
string of the claim wrapped in the red ANSI escape sequence. -/
theorem C4_nxdomain_line (resolve : String → String → Except DnsException (List String))
    (g : String → Except String IpDetails) (d rt : String) (tok : Option String)
    (h : resolve d rt = Except.error DnsException.NXDOMAIN) :
    perform_dns_lookup resolve g d rt tok =
      [colored ("The domain " ++ d ++ " does not exist.") "red"] := by
  unfold perform_dns_lookup perform_dns_lookupT
  rw [h]
  rfl

/-- C4, witness: the concrete NXDOMAIN output for nonexist.invalid. -/
theorem C4_witness :
    perform_dns_lookup nxResolver failingHandler "nonexist.invalid" "A" none =
      ["\x1b[31mThe domain nonexist.invalid does not exist.\x1b[0m"] := by
  rw [C4_nxdomain_line nxResolver failingHandler "nonexist.invalid" "A" none rfl]
  rfl

/-- C5: when the resolver succeeds with N record values and no
geolocation enrichment applies (type other than A, or no truthy token),
the lookup result is exactly the header line followed by the N record
values in resolver order: N+1 lines. -/
theorem C5_success_line_count
    (resolve : String → String → Except DnsException (List String))
    (g : String → Except String IpDetails) (d rt : String) (tok : Option String)
    (answers : List String) (h : resolve d rt = Except.ok answers)
    (hng : rt ≠ "A" ∨ truthy tok = false) :
    perform_dns_lookup resolve g d rt tok = headerLine d rt :: answers ∧
    (perform_dns_lookup resolve g d rt tok).length = answers.length + 1 := by
  have hcond : (rt == "A" && truthy tok) = false := by
    rcases hng with h1 | h1
    · simp [h1]
    · simp [h1]
  have hres : perform_dns_lookup resolve g d rt tok = headerLine d rt :: answers := by
    unfold perform_dns_lookup perform_dns_lookupT
    rw [h]
    simp [hcond]
  exact ⟨hres, by rw [hres]; simp⟩

/-- C5, witness: two MX records with a token configured give three lines. -/
theorem C5_witness :
    perform_dns_lookup twoRecordResolver failingHandler "example.com" "MX" (some "token") =
      headerLine "example.com" "MX" :: ["mail1.example.com.", "mail2.example.com."] ∧
    (perform_dns_lookup twoRecordResolver failingHandler "example.com" "MX"
        (some "token")).length =
      (["mail1.example.com.", "mail2.example.com."] : List String).length + 1 := by
  exact C5_success_line_count twoRecordResolver failingHandler "example.com" "MX"
    (some "token") ["mail1.example.com.", "mail2.example.com."] rfl (Or.inl (by decide))

/-- C6: the geolocation adapter receives IPs only when the record type is
A, the token is truthy and at least one address resolved — in that case
exactly the resolved addresses; for any other record type, or without a
truthy token, no IP is ever passed to it; and for an A lookup with one
resolved IP and a token the result contains the geolocation block
header. -/
theorem C6_geolocation_gating
    (resolve : String → String → Except DnsException (List String))
    (g : String → Except String IpDetails) (d rt : String) (tok : Option String) :
    ((perform_dns_lookupT resolve g d rt tok).2 ≠ [] →
      rt = "A" ∧ truthy tok = true ∧
      ∃ answers, resolve d rt = Except.ok answers ∧ answers ≠ [] ∧
        (perform_dns_lookupT resolve g d rt tok).2 = answers) ∧
    (rt ≠ "A" → (perform_dns_lookupT resolve g d rt tok).2 = []) ∧
    (truthy tok = false → (perform_dns_lookupT resolve g d rt tok).2 = []) ∧
    (∀ ip, truthy tok = true → resolve d "A" = Except.ok [ip] →
      (perform_dns_lookupT resolve g d "A" tok).2 = [ip] ∧
      ("IP Geolocation for " ++ ip ++ ":") ∈ (perform_dns_lookupT resolve g d "A" tok).1) := by
  refine ⟨?_, ?_, ?_, ?_⟩
  · intro h2
    rw [lookupT_snd] at h2
    cases hres : resolve d rt with
    | error e => rw [hres] at h2; simp at h2
    | ok answers =>
        rw [hres] at h2
        by_cases hc : (rt == "A" && truthy tok && !answers.isEmpty) = true
        · have hc' := hc
          rw [Bool.and_eq_true] at hc'
          have hc'' := hc'.1
          rw [Bool.and_eq_true] at hc''
          refine ⟨by simpa using hc''.1, hc''.2, answers, rfl,
            by simpa [List.isEmpty_iff] using hc'.2, ?_⟩
          have hsnd := lookupT_snd resolve g d rt tok
          rw [hres] at hsnd
          simp only [hc, if_true] at hsnd
          exact hsnd
        · simp [hc] at h2
  · intro hA
    rw [lookupT_snd]
    cases hres : resolve d rt with
    | error e => rfl
    | ok answers =>
        have hb : (rt == "A") = false := by simpa using hA
        simp [hb]
  · intro ht
    rw [lookupT_snd]
    cases hres : resolve d rt with
    | error e => rfl
    | ok answers => simp [ht]
  · intro ip ht hres
    constructor
    · rw [lookupT_snd, hres]
      simp [ht]
    · rw [lookupT_fst_geo resolve g d tok [ip] hres ht (by simp)]
      have hg : get_ipinfo_data g [ip] = [(ip, geo_entry g ip)] := rfl
      rw [hg]
      simp [geoLines]

/-- C6, witness: one resolved A record with a token configured. -/
theorem C6_witness :
    (perform_dns_lookupT oneARecordResolver mixedHandler "example.com" "A"
        (some "token")).2 = ["93.184.216.34"] ∧
    ("IP Geolocation for " ++ "93.184.216.34" ++ ":") ∈
      (perform_dns_lookupT oneARecordResolver mixedHandler "example.com" "A"
        (some "token")).1 := by
  exact (C6_geolocation_gating oneARecordResolver mixedHandler "example.com" "A"
    (some "token")).2.2.2 "93.184.216.34" (by decide) rfl

/-- C7: the geolocation mapping holds an entry for every input IP, and
the entry of each IP is determined by that IP alone: the seven
populated fields when its own query succeeds, the error placeholder when
its own query fails — other IPs never affect it. -/
theorem C7_per_ip_isolation (g : String → Except String IpDetails)
    (ips : List String) (ip : String) (hip : ip ∈ ips) :
    dict_get (get_ipinfo_data g ips) ip = some (geo_entry g ip) ∧
    (∀ d, g ip = Except.ok d → geo_entry g ip =
      [("City", d.city), ("Region", d.region), ("Country", d.country), ("Org", d.org),
       ("Postal", d.postal), ("Timezone", d.timezone), ("Location", d.loc)]) ∧
    (∀ e, g ip = Except.error e → geo_entry g ip =
      [("Error", "Could not retrieve geolocation data: " ++ e)]) := by
  refine ⟨?_, ?_, ?_⟩
  · unfold get_ipinfo_data
    rw [ipinfo_foldl_get g ips [] ip, if_pos hip]
  · intro d hd
    simp [geo_entry, hd]
  · intro e he
    simp [geo_entry, he]

/-- C7, witness: one failing IP next to one succeeding IP; the failing IP
gets its own error placeholder while remaining keyed in the mapping. -/
theorem C7_witness :
    ("1.1.1.1" ∈ ["93.184.216.34", "1.1.1.1"]) ∧
    dict_get (get_ipinfo_data mixedHandler ["93.184.216.34", "1.1.1.1"]) "1.1.1.1" =
      some (geo_entry mixedHandler "1.1.1.1") := by
  exact ⟨by decide,
    (C7_per_ip_isolation mixedHandler ["93.184.216.34", "1.1.1.1"] "1.1.1.1" (by decide)).1⟩

/-- C8, counterexample: a config file with an `ipinfo_token` key does not
configure geolocation for the run — `load_config` never reads that key
and `main` keeps the CLI token (here absent), so the run settings carry
no token although the config says SECRET. -/
theorem C8_counterexample :
    main_settings (some [("domains", "example.com"), ("record_types", "A"),
        ("timeout", "5.0"), ("ipinfo_token", "SECRET")]) none [] "5.0" none none =
      some ⟨["example.com"], ["A"], "5.0", none, none⟩ ∧
    (⟨["example.com"], ["A"], "5.0", none, none⟩ : RunSettings) ≠
      ⟨["example.com"], ["A"], "5.0", none, some "SECRET"⟩ := by
  exact ⟨rfl, by decide⟩

/-- C8, amended: `load_config` reads `domains` and `record_types`
(comma-split), `timeout`, and the optional `nameserver`; it does NOT read
`ipinfo_token` — changing that key changes nothing — and the token used
for the run is always the CLI flag, whatever the config holds. -/
theorem C8_config_keys (cfg : List (String × String)) (v : String)
    (ad : Option String) (ats : List String) (ato : String) (ans tok : Option String) :
    load_config (dict_set cfg "ipinfo_token" v) = load_config cfg ∧
    (∀ s, main_settings (some cfg) ad ats ato ans tok = some s →
      s.ipinfo_token = tok) ∧
    (∀ dms rts t, cfgGet cfg "domains" = some dms →
      cfgGet cfg "record_types" = some rts → cfgGet cfg "timeout" = some t →
      load_config cfg =
        some (split_comma dms, split_comma rts, t, cfgGet cfg "nameserver")) := by
  have hother : ∀ q, q ≠ "ipinfo_token" →
      dict_get (dict_set cfg "ipinfo_token" v) q = dict_get cfg q := by
    intro q hq
    rw [dict_get_set, if_neg hq]
  refine ⟨?_, ?_, ?_⟩
  · unfold load_config cfgGet
    rw [hother "domains" (by decide), hother "record_types" (by decide),
      hother "timeout" (by decide), hother "nameserver" (by decide)]
  · intro s hs
    have hs' : (load_config cfg).map (fun r =>
        (⟨r.1, r.2.1, r.2.2.1, r.2.2.2, tok⟩ : RunSettings)) = some s := hs
    cases hlc : load_config cfg with
    | none => rw [hlc] at hs'; simp at hs'
    | some r =>
        rw [hlc] at hs'
        have hs'' : some (⟨r.1, r.2.1, r.2.2.1, r.2.2.2, tok⟩ : RunSettings) = some s := hs'
        rw [← Option.some.inj hs'']
  · intro dms rts t hd hrt ht
    unfold load_config
    rw [hd, hrt, ht]

/-- C8, witness for the amended theorem on a concrete config. -/
theorem C8_witness :
    load_config (dict_set [("domains", "a.com,b.com"), ("record_types", "A,MX"),
        ("timeout", "2.5")] "ipinfo_token" "SECRET") =
      load_config [("domains", "a.com,b.com"), ("record_types", "A,MX"),
        ("timeout", "2.5")] ∧
    (⟨["a.com", "b.com"], ["A", "MX"], "2.5", none, some "cli-token"⟩ :
        RunSettings).ipinfo_token = some "cli-token" ∧
    load_config [("domains", "a.com,b.com"), ("record_types", "A,MX"),
        ("timeout", "2.5")] =
      some (split_comma "a.com,b.com", split_comma "A,MX", "2.5",
        cfgGet [("domains", "a.com,b.com"), ("record_types", "A,MX"),
          ("timeout", "2.5")] "nameserver") := by
  have h := C8_config_keys [("domains", "a.com,b.com"), ("record_types", "A,MX"),
    ("timeout", "2.5")] "SECRET" none [] "5.0" none (some "cli-token")
  exact ⟨h.1,
    h.2.1 ⟨["a.com", "b.com"], ["A", "MX"], "2.5", none, some "cli-token"⟩ rfl,
    h.2.2 "a.com,b.com" "A,MX" "2.5" rfl rfl rfl⟩

/-- C9: for any completion order — any permutation of the dispatched
pairs — the aggregate the bounded-parallel orchestrator produces is a
permutation (equal multiset of lines) of the sequential processing of the
pairs in input order: no line added, lost, or changed. -/
theorem C9_parallel_matches_sequential
    (resolve : String → String → Except DnsException (List String))
    (g : String → Except String IpDetails) (tok : Option String)
    (domains record_types : List String) (completion : List (String × String))
    (hperm : completion.Perm (dispatchPairs domains record_types)) :
    (main_results (akari_outcome resolve g tok) completion).Perm
      (runSequential resolve g tok (dispatchPairs domains record_types)) := by
  rw [main_results_eq]
  unfold runSequential
  exact List.Perm.flatMap_right _ hperm

/-- C9, witness: two pairs completing in reversed order. -/
theorem C9_witness :
    (([("b.test", "A"), ("a.test", "A")] : List (String × String)).Perm
      (dispatchPairs ["a.test", "b.test"] ["A"])) ∧
    (main_results (akari_outcome nxResolver failingHandler none)
        [("b.test", "A"), ("a.test", "A")]).Perm
      (runSequential nxResolver failingHandler none
        (dispatchPairs ["a.test", "b.test"] ["A"])) := by
  exact ⟨by decide, C9_parallel_matches_sequential nxResolver failingHandler none
    ["a.test", "b.test"] ["A"] [("b.test", "A"), ("a.test", "A")] (by decide)⟩

/-- C10: `perform_dns_lookup` never raises — every resolver exception,
the catch-all arm included, becomes a single error line and the function
returns normally — so the retry decorator always sees a normal return on
the first attempt (one invocation, no wait) and the per-future exception
branch of the orchestrator contributes nothing: the aggregate is exactly
the concatenation of the per-pair lookup lines. -/
theorem C10_lookup_never_raises
    (resolveAt : Nat → String → String → Except DnsException (List String))
    (resolve : String → String → Except DnsException (List String))
    (g : String → Except String IpDetails) (d rt : String) (tok : Option String)
    (completion : List (String × String)) :
    perform_dns_lookup_with_retryT resolveAt g d rt tok =
      (Except.ok (perform_dns_lookup (resolveAt 0) g d rt tok), 1, 0) ∧
    (∀ e, resolve d rt = Except.error e →
      perform_dns_lookup resolve g d rt tok = [errorLine d rt e]) ∧
    main_results (akari_outcome resolve g tok) completion =
      completion.flatMap (fun p => perform_dns_lookup resolve g p.1 p.2 tok) := by
  refine ⟨?_, ?_, main_results_eq resolve g tok completion⟩
  · unfold perform_dns_lookup_with_retryT retryPolicy
    exact retryGo_ok _ _ _ _ _ rfl
  · intro e he
    unfold perform_dns_lookup perform_dns_lookupT
    rw [he]

/-- C10, witness at concrete adapters, including the catch-all arm. -/
theorem C10_witness :
    perform_dns_lookup_with_retryT (fun _ => nxResolver) mixedHandler
        "example.com" "TXT" none =
      (Except.ok (perform_dns_lookup nxResolver mixedHandler "example.com" "TXT" none),
        1, 0) ∧
    perform_dns_lookup (fun _ _ => Except.error (DnsException.other "kaboom"))
        mixedHandler "example.com" "TXT" none =
      [errorLine "example.com" "TXT" (DnsException.other "kaboom")] := by
  have h1 := C10_lookup_never_raises (fun _ => nxResolver) nxResolver mixedHandler
    "example.com" "TXT" none []
  have h2 := C10_lookup_never_raises (fun _ => nxResolver)
    (fun _ _ => Except.error (DnsException.other "kaboom")) mixedHandler
    "example.com" "TXT" none []
  exact ⟨h1.1, h2.2.1 (DnsException.other "kaboom") rfl⟩

end Akari
